import Mathlib

/-!
Verification of the task-store component of a TODO-tracking application.

The store is a Django app with a single model `Todo` (src/todo/models.py)
and seven view functions (src/todo/views.py).  We embed it shallowly:

* timestamps are integers (`Int`), the ambient clock `timezone.now()`
  becomes an explicit `now : Int` argument;
* the database table is a `List Todo`; Django's auto-assigned primary key
  becomes an explicit `newId` argument constrained to be fresh in the
  reachability relation;
* an HTTP POST / GET parameter is an `Option String` (`none` = the key is
  absent from the request); Python truthiness of such a value
  (`if title:`) is `truthyOpt`;
* each view's mutating POST branch becomes a function from the store (and
  the request parameters) to a pair of a result (`Except TodoError _`,
  where `get_object_or_404` raising Http404 is `.error .notFound` and the
  `messages.error` re-render branch of `todo_create` is
  `.error .validationError`) and the resulting store.
-/

/-- A row of the `Todo` table (src/todo/models.py).  `owner` is the primary
key of the owning `User`; `due_date` and `completed_at` are nullable
timestamp columns. -/
structure Todo where
  id : Nat
  title : String
  description : String
  status : String
  priority : String
  due_date : Option Int
  created_at : Int
  updated_at : Int
  completed_at : Option Int
  owner : Nat
deriving DecidableEq, Repr

/-- Errors surfaced by the views: `notFound` is Django's Http404 raised by
`get_object_or_404`, `validationError` is the `Title is required!` error
branch of `todo_create`. -/
inductive TodoError where
  | notFound
  | validationError
deriving DecidableEq, Repr

/-- Python truthiness of an HTTP parameter: `request.POST.get(k)` returns
`None` when the key is absent, and the empty string is falsy. -/
def truthyOpt : Option String → Bool
  | none => false
  | some s => !s.isEmpty

/-- Reads a run of decimal digits, failing on any non-digit character. -/
def parseNatAux : List Char → Nat → Option Nat
  | [], acc => some acc
  | c :: cs, acc =>
    if c.isDigit then parseNatAux cs (acc * 10 + (c.toNat - 48)) else none

/-- Modelled from the spec: the timestamp parsing the persistence framework
applies to a `due_date` string is not part of the source under src/ (the
views hand the raw string to the ORM).  The spec states that unparsable
values are treated as absent, so parsing is modelled as a total function
into `Option Int` that yields `none` on unparsable input; concretely we
read a decimal number of time units. -/
def parseTimestamp (s : String) : Option Int :=
  match s.data with
  | [] => none
  | cs => (parseNatAux cs 0).map (fun n => (n : Int))

/-- `Todo.mark_as_completed` (src/todo/models.py lines 55-60): sets
`status = 'completed'`, stamps `completed_at`, and saves, which refreshes
the `auto_now` column `updated_at`. -/
def mark_as_completed (now : Int) (t : Todo) : Todo :=
  { t with
    status := "completed"
    completed_at := some now
    updated_at := now }

/-- `Todo.is_overdue` (src/todo/models.py lines 62-67): true iff
`due_date` is set (a datetime is always truthy), `status != 'completed'`,
and the current time is strictly past the due date. -/
def is_overdue (now : Int) (t : Todo) : Bool :=
  match t.due_date with
  | some d => if t.status ≠ "completed" then decide (d < now) else false
  | none => false

/-- `get_object_or_404(Todo, pk=pk, owner=request.user)`: the row with the
given primary key, provided it is owned by the requesting user. -/
def findOwned (store : List Todo) (pk : Nat) (u : Nat) : Option Todo :=
  store.find? (fun t => t.id == pk && t.owner == u)

/-- The POST branch of `todo_create` (src/todo/views.py lines 44-68).
Parameters mirror `request.POST.get`: `title`/`due_date` default to
`None`, `description` to `''`, `priority` to `'medium'`.  A falsy title
is rejected; a falsy `due_date` is stored as null, otherwise the string
is handed to the ORM, i.e. to `parseTimestamp`.  The new row gets the
model defaults `status = 'pending'`, `completed_at = None`, and the
`auto_now_add`/`auto_now` stamps `created_at = updated_at = now`. -/
def todo_create (store : List Todo) (u : Nat)
    (title description priority due_date : Option String)
    (now : Int) (newId : Nat) : Except TodoError Todo × List Todo :=
  if truthyOpt title then
    let t : Todo :=
      { id := newId
        title := title.getD ""
        description := description.getD ""
        status := "pending"
        priority := priority.getD "medium"
        due_date := if truthyOpt due_date then parseTimestamp (due_date.getD "") else none
        created_at := now
        updated_at := now
        completed_at := none
        owner := u }
    (Except.ok t, store ++ [t])
  else
    (Except.error TodoError.validationError, store)

/-- The fields of the POST body that `todo_update` reads; `none` means the
key is absent from the request. -/
structure FieldChanges where
  title : Option String
  description : Option String
  status : Option String
  priority : Option String
  due_date : Option String
deriving DecidableEq, Repr

/-- The field assignments of `todo_update` (src/todo/views.py lines 78-84):
`request.POST.get(k, todo.k)` keeps the prior value when the key is
absent; `due_date` is nulled when falsy and otherwise handed to the ORM;
saving refreshes the `auto_now` column `updated_at`. -/
def applyChanges (t : Todo) (c : FieldChanges) (now : Int) : Todo :=
  { t with
    title := c.title.getD t.title
    description := c.description.getD t.description
    status := c.status.getD t.status
    priority := c.priority.getD t.priority
    due_date := if truthyOpt c.due_date then parseTimestamp (c.due_date.getD "") else none
    updated_at := now }

/-- `todo_detail` (src/todo/views.py lines 34-41): look the row up under
the ownership rule; Http404 when that fails. -/
def todo_detail (store : List Todo) (pk : Nat) (u : Nat) : Except TodoError Todo :=
  match findOwned store pk u with
  | none => Except.error TodoError.notFound
  | some t => Except.ok t

/-- The POST branch of `todo_update` (src/todo/views.py lines 71-88):
look the row up under the ownership rule, apply the field changes, save. -/
def todo_update (store : List Todo) (pk : Nat) (u : Nat)
    (c : FieldChanges) (now : Int) : Except TodoError Todo × List Todo :=
  match findOwned store pk u with
  | none => (Except.error TodoError.notFound, store)
  | some t =>
    let t2 := applyChanges t c now
    (Except.ok t2, store.map (fun x => if x.id == pk then t2 else x))

/-- The POST branch of `todo_delete` (src/todo/views.py): look the row up
under the ownership rule and delete it. -/
def todo_delete (store : List Todo) (pk : Nat) (u : Nat) :
    Except TodoError Unit × List Todo :=
  match findOwned store pk u with
  | none => (Except.error TodoError.notFound, store)
  | some _ => (Except.ok (), store.filter (fun t => !(t.id == pk)))

/-- `todo_complete` (src/todo/views.py): look the row up under the
ownership rule and call `mark_as_completed` on it. -/
def todo_complete (store : List Todo) (pk : Nat) (u : Nat) (now : Int) :
    Except TodoError Todo × List Todo :=
  match findOwned store pk u with
  | none => (Except.error TodoError.notFound, store)
  | some t =>
    let t2 := mark_as_completed now t
    (Except.ok t2, store.map (fun x => if x.id == pk then t2 else x))

/-- The aggregate record built by `todo_stats` (src/todo/views.py lines
130-139). -/
structure Stats where
  total : Nat
  pending : Nat
  in_progress : Nat
  completed : Nat
  overdue : Nat
  high_priority : Nat
deriving DecidableEq, Repr

/-- `todo_stats` (src/todo/views.py lines 124-143): all counts range over
the requesting user's rows; `overdue` evaluates `is_overdue` per row. -/
def todo_stats (store : List Todo) (u : Nat) (now : Int) : Stats :=
  let todos := store.filter (fun t => t.owner == u)
  { total := todos.length
    pending := (todos.filter (fun t => t.status == "pending")).length
    in_progress := (todos.filter (fun t => t.status == "in_progress")).length
    completed := (todos.filter (fun t => t.status == "completed")).length
    overdue := (todos.filter (fun t => is_overdue now t)).length
    high_priority := (todos.filter (fun t => t.priority == "high")).length }

/-- One server-side mutation of the store: a POST to one of the four
mutating views, at any time, by any user, with any parameters; the fresh
primary key a create receives is one no existing row carries. -/
inductive Step : List Todo → List Todo → Prop where
  | create (s : List Todo) (u : Nat) (title description priority due_date : Option String)
      (now : Int) (newId : Nat) (fresh : ∀ t ∈ s, t.id ≠ newId) :
      Step s (todo_create s u title description priority due_date now newId).snd
  | update (s : List Todo) (pk u : Nat) (c : FieldChanges) (now : Int) :
      Step s (todo_update s pk u c now).snd
  | complete (s : List Todo) (pk u : Nat) (now : Int) :
      Step s (todo_complete s pk u now).snd
  | delete (s : List Todo) (pk u : Nat) :
      Step s (todo_delete s pk u).snd

/-- A store state reachable from the empty table by a sequence of requests. -/
def Reachable (s : List Todo) : Prop :=
  Relation.ReflTransGen Step [] s

/-- C2: `is_overdue` is true exactly when a due date is set, it lies
strictly in the past, and the task is not completed; hence completed tasks
and tasks without a due date are never overdue. -/
theorem is_overdue_iff (now : Int) (t : Todo) :
    is_overdue now t = true ↔
      (∃ d, t.due_date = some d ∧ d < now) ∧ t.status ≠ "completed" := by
  unfold is_overdue
  cases h : t.due_date with
  | none => simp [h]
  | some d =>
    by_cases hs : t.status = "completed"
    · simp [hs]
    · simp [hs]

/-- C7: every call to `mark_as_completed` ends with `status = 'completed'`
(so a second call does not change the status), yet each call — including a
call on an already-completed task — re-stamps `completed_at` and
`updated_at` to its own current time. -/
theorem mark_as_completed_restamps (t : Todo) (n1 n2 : Int) :
    (mark_as_completed n1 t).status = "completed" ∧
    (mark_as_completed n2 (mark_as_completed n1 t)).status =
      (mark_as_completed n1 t).status ∧
    (mark_as_completed n1 t).completed_at = some n1 ∧
    (mark_as_completed n1 t).updated_at = n1 ∧
    (mark_as_completed n2 (mark_as_completed n1 t)).completed_at = some n2 ∧
    (mark_as_completed n2 (mark_as_completed n1 t)).updated_at = n2 :=
  ⟨rfl, rfl, rfl, rfl, rfl, rfl⟩

/-- C10: `mark_as_completed` changes at most `status`, `completed_at` and
`updated_at`: `id`, `title`, `description`, `priority`, `due_date`,
`created_at` and `owner` are untouched. -/
theorem mark_as_completed_frame (now : Int) (t : Todo) :
    (mark_as_completed now t).id = t.id ∧
    (mark_as_completed now t).title = t.title ∧
    (mark_as_completed now t).description = t.description ∧
    (mark_as_completed now t).priority = t.priority ∧
    (mark_as_completed now t).due_date = t.due_date ∧
    (mark_as_completed now t).created_at = t.created_at ∧
    (mark_as_completed now t).owner = t.owner :=
  ⟨rfl, rfl, rfl, rfl, rfl, rfl, rfl⟩

/-- A row owned by user 2, used to instantiate ownership-mismatch
hypotheses at a concrete input. -/
def foreignTask : Todo :=
  { id := 1
    title := "task"
    description := ""
    status := "pending"
    priority := "medium"
    due_date := none
    created_at := 0
    updated_at := 0
    completed_at := none
    owner := 2 }

/-- A row owned by user 1 with `completed_at = none`, used to instantiate
update hypotheses at a concrete input. -/
def ownTask : Todo :=
  { id := 1
    title := "task"
    description := ""
    status := "pending"
    priority := "medium"
    due_date := none
    created_at := 0
    updated_at := 0
    completed_at := none
    owner := 1 }

/-- A POST body carrying none of the recognized fields. -/
def noChanges : FieldChanges :=
  { title := none, description := none, status := none, priority := none, due_date := none }

/-- A POST body carrying only `status=completed`. -/
def statusCompleted : FieldChanges :=
  { title := none, description := none, status := some "completed", priority := none, due_date := none }

/-- C3: when every row with the requested primary key belongs to a user
other than the requester (which covers both the row being absent and it
being owned by someone else), `todo_detail`, `todo_update`, `todo_delete`
and `todo_complete` all answer with the same `notFound` error — no
distinct forbidden error — and the store is returned unchanged. -/
theorem notFound_conflates_absence_and_foreign_owner (store : List Todo)
    (pk u : Nat) (c : FieldChanges) (now : Int)
    (h : ∀ t ∈ store, t.id = pk → t.owner ≠ u) :
    todo_detail store pk u = Except.error TodoError.notFound ∧
    todo_update store pk u c now = (Except.error TodoError.notFound, store) ∧
    todo_delete store pk u = (Except.error TodoError.notFound, store) ∧
    todo_complete store pk u now = (Except.error TodoError.notFound, store) := by
  have hfind : findOwned store pk u = none := by
    unfold findOwned
    rw [List.find?_eq_none]
    intro t ht
    simp only [Bool.and_eq_true, beq_iff_eq, not_and]
    exact fun hid => h t ht hid
  exact ⟨by simp [todo_detail, hfind], by simp [todo_update, hfind],
    by simp [todo_delete, hfind], by simp [todo_complete, hfind]⟩

/-- Witness for C3 at a concrete input: the store holds exactly one row
with primary key 1, owned by user 2; user 1 requests it. -/
theorem notFound_conflates_witness :
    (∀ t ∈ [foreignTask], t.id = 1 → t.owner ≠ 1) ∧
    (todo_detail [foreignTask] 1 1 = Except.error TodoError.notFound ∧
     todo_update [foreignTask] 1 1 noChanges 5 = (Except.error TodoError.notFound, [foreignTask]) ∧
     todo_delete [foreignTask] 1 1 = (Except.error TodoError.notFound, [foreignTask]) ∧
     todo_complete [foreignTask] 1 1 5 = (Except.error TodoError.notFound, [foreignTask])) :=
  ⟨by decide, notFound_conflates_absence_and_foreign_owner [foreignTask] 1 1 noChanges 5 (by decide)⟩

/-- C4: a create whose title is absent or empty answers with the
validation error and returns the store unchanged: nothing is persisted. -/
theorem create_empty_title_rejected (store : List Todo) (u : Nat)
    (title description priority due_date : Option String) (now : Int) (newId : Nat)
    (h : title = none ∨ title = some "") :
    (todo_create store u title description priority due_date now newId).fst =
      Except.error TodoError.validationError ∧
    (todo_create store u title description priority due_date now newId).snd = store := by
  rcases h with h | h <;> subst h <;> exact ⟨rfl, rfl⟩

/-- Witness for C4 at a concrete input: empty title, store with one row. -/
theorem create_empty_title_witness :
    ((some "" : Option String) = none ∨ (some "" : Option String) = some "") ∧
    ((todo_create [ownTask] 1 (some "") none none none 5 2).fst =
      Except.error TodoError.validationError ∧
     (todo_create [ownTask] 1 (some "") none none none 5 2).snd = [ownTask]) :=
  ⟨Or.inr rfl, create_empty_title_rejected [ownTask] 1 (some "") none none none 5 2 (Or.inr rfl)⟩

/-- C5: a successful update applies exactly the supplied fields: each of
`title`, `description`, `status`, `priority` that is absent from the POST
body keeps its prior value, while `due_date` becomes null whenever the
POST body omits it or supplies it empty. -/
theorem update_partial_semantics (store : List Todo) (pk u : Nat)
    (c : FieldChanges) (now : Int) (t : Todo)
    (h : findOwned store pk u = some t) :
    ∃ t2, (todo_update store pk u c now).fst = Except.ok t2 ∧
      (c.title = none → t2.title = t.title) ∧
      (c.description = none → t2.description = t.description) ∧
      (c.status = none → t2.status = t.status) ∧
      (c.priority = none → t2.priority = t.priority) ∧
      ((c.due_date = none ∨ c.due_date = some "") → t2.due_date = none) := by
  refine ⟨applyChanges t c now, by simp [todo_update, h], ?_, ?_, ?_, ?_, ?_⟩
  · intro hc; simp [applyChanges, hc]
  · intro hc; simp [applyChanges, hc]
  · intro hc; simp [applyChanges, hc]
  · intro hc; simp [applyChanges, hc]
  · rintro (hc | hc) <;> simp only [applyChanges, hc] <;> decide

/-- Witness for C5 at a concrete input: user 1 updates their own row with
an empty POST body. -/
theorem update_partial_witness :
    findOwned [ownTask] 1 1 = some ownTask ∧
    (∃ t2, (todo_update [ownTask] 1 1 noChanges 5).fst = Except.ok t2 ∧
      (noChanges.title = none → t2.title = ownTask.title) ∧
      (noChanges.description = none → t2.description = ownTask.description) ∧
      (noChanges.status = none → t2.status = ownTask.status) ∧
      (noChanges.priority = none → t2.priority = ownTask.priority) ∧
      ((noChanges.due_date = none ∨ noChanges.due_date = some "") → t2.due_date = none)) :=
  ⟨rfl, update_partial_semantics [ownTask] 1 1 noChanges 5 ownTask rfl⟩

/-- C6: a successful update never touches `completed_at` (the resulting
row keeps the prior value) while `status` becomes whatever the POST body
says (prior value if absent) — so a body with `status=completed` yields a
row with `status = 'completed'` and `completed_at` still null when it was
null before. -/
theorem update_leaves_completed_at (store : List Todo) (pk u : Nat)
    (c : FieldChanges) (now : Int) (t : Todo)
    (h : findOwned store pk u = some t) :
    ∃ t2, (todo_update store pk u c now).fst = Except.ok t2 ∧
      t2.completed_at = t.completed_at ∧
      t2.status = c.status.getD t.status := by
  exact ⟨applyChanges t c now, by simp [todo_update, h], rfl, rfl⟩

/-- Witness for C6 at a concrete input: user 1 sets `status=completed` on
their own never-completed row; the theorem yields a row whose status is
`completed` and whose `completed_at` is still `none`. -/
theorem update_leaves_completed_at_witness :
    findOwned [ownTask] 1 1 = some ownTask ∧
    (∃ t2, (todo_update [ownTask] 1 1 statusCompleted 5).fst = Except.ok t2 ∧
      t2.completed_at = ownTask.completed_at ∧
      t2.status = statusCompleted.status.getD ownTask.status) :=
  ⟨rfl, update_leaves_completed_at [ownTask] 1 1 statusCompleted 5 ownTask rfl⟩

/-- C9: a create with a non-empty title and a due-date string that does
not parse as a timestamp succeeds, and the row it appends to the store
carries `due_date = none`. -/
theorem create_unparsable_due_date (store : List Todo) (u : Nat)
    (titl : String) (description priority : Option String) (s : String)
    (now : Int) (newId : Nat)
    (ht : titl.isEmpty = false) (hp : parseTimestamp s = none) :
    ∃ t2, (todo_create store u (some titl) description priority (some s) now newId).fst =
        Except.ok t2 ∧
      t2.due_date = none ∧
      (todo_create store u (some titl) description priority (some s) now newId).snd =
        store ++ [t2] := by
  have htr : truthyOpt (some titl) = true := by
    simp [truthyOpt, ht]
  rw [todo_create, if_pos htr]
  refine ⟨_, rfl, ?_, rfl⟩
  show (if truthyOpt (some s) = true then parseTimestamp ((some s).getD "") else none) = none
  cases h2 : truthyOpt (some s) <;> simp [hp]

/-- Witness for C9 at a concrete input: the string `tomorrow` does not
parse as a timestamp; the created row has a null due date. -/
theorem create_unparsable_due_date_witness :
    "task".isEmpty = false ∧ parseTimestamp "tomorrow" = none ∧
    (∃ t2, (todo_create [] 1 (some "task") none none (some "tomorrow") 5 1).fst =
        Except.ok t2 ∧
      t2.due_date = none ∧
      (todo_create [] 1 (some "task") none none (some "tomorrow") 5 1).snd = [] ++ [t2]) :=
  ⟨rfl, by decide, create_unparsable_due_date [] 1 "task" none none "tomorrow" 5 1 rfl (by decide)⟩

/-- Counting a list of rows by the three vocabulary statuses exhausts it
exactly when every row's status lies in the vocabulary. -/
theorem length_filter_status_partition (l : List Todo)
    (h : ∀ t ∈ l, t.status = "pending" ∨ t.status = "in_progress" ∨
      t.status = "completed") :
    (l.filter (fun t => t.status == "pending")).length +
      (l.filter (fun t => t.status == "in_progress")).length +
      (l.filter (fun t => t.status == "completed")).length = l.length := by
  induction l with
  | nil => rfl
  | cons a l ih =>
    have ha := h a (List.mem_cons_self a l)
    have ih2 := ih (fun t ht => h t (List.mem_cons_of_mem a ht))
    rcases ha with ha | ha | ha <;>
      simp [List.filter_cons, ha, ih2] <;> omega

/-- C1 (amended): whenever every task the owner holds has a status inside
the vocabulary `pending`/`in_progress`/`completed`, the counts reported by
`todo_stats` satisfy `pending + in_progress + completed = total`. -/
theorem stats_partition_with_vocab_statuses (store : List Todo) (u : Nat)
    (now : Int)
    (h : ∀ t ∈ store, t.owner = u →
      t.status = "pending" ∨ t.status = "in_progress" ∨ t.status = "completed") :
    (todo_stats store u now).pending + (todo_stats store u now).in_progress +
      (todo_stats store u now).completed = (todo_stats store u now).total := by
  have hl : ∀ t ∈ store.filter (fun t => t.owner == u),
      t.status = "pending" ∨ t.status = "in_progress" ∨ t.status = "completed" := by
    intro t ht
    rw [List.mem_filter] at ht
    exact h t ht.1 (by simpa using ht.2)
  exact length_filter_status_partition _ hl

/-- Witness for the amended C1 at a concrete input: user 1 owns one
pending task. -/
theorem stats_partition_with_vocab_witness :
    (∀ t ∈ [ownTask], t.owner = 1 →
      t.status = "pending" ∨ t.status = "in_progress" ∨ t.status = "completed") ∧
    (todo_stats [ownTask] 1 2).pending + (todo_stats [ownTask] 1 2).in_progress +
      (todo_stats [ownTask] 1 2).completed = (todo_stats [ownTask] 1 2).total :=
  ⟨by decide, stats_partition_with_vocab_statuses [ownTask] 1 2 (by decide)⟩

/-- The store reached by creating a task for user 1 and then updating its
status to the out-of-vocabulary value `bogus`, which no code path
validates. -/
def badStore : List Todo :=
  (todo_update (todo_create [] 1 (some "task") none none none 0 1).snd 1 1
    { title := none, description := none, status := some "bogus",
      priority := none, due_date := none } 1).snd

/-- Counterexample to C1 as stated: `badStore` is reachable from the empty
store by two requests, yet its stats for user 1 have
`pending + in_progress + completed = 0` while `total = 1`. -/
theorem stats_partition_fails_when_status_invalid :
    Reachable badStore ∧
    (todo_stats badStore 1 2).pending + (todo_stats badStore 1 2).in_progress +
      (todo_stats badStore 1 2).completed ≠ (todo_stats badStore 1 2).total := by
  constructor
  · have h1 : Step [] (todo_create [] 1 (some "task") none none none 0 1).snd :=
      Step.create [] 1 (some "task") none none none 0 1
        (fun t ht => absurd ht (List.not_mem_nil t))
    have h2 : Step (todo_create [] 1 (some "task") none none none 0 1).snd badStore :=
      Step.update (todo_create [] 1 (some "task") none none none 0 1).snd 1 1
        { title := none, description := none, status := some "bogus",
          priority := none, due_date := none } 1
    exact Relation.ReflTransGen.tail (Relation.ReflTransGen.single h1) h2
  · decide

/-- The ordering that Django's model option `ordering = ['-created_at']`
imposes on every queryset of this model: most recently created first. -/
def createdDesc (a b : Todo) : Prop :=
  b.created_at ≤ a.created_at

instance : DecidableRel createdDesc :=
  fun a b => inferInstanceAs (Decidable (b.created_at ≤ a.created_at))

instance : IsTotal Todo createdDesc :=
  ⟨fun a b => le_total b.created_at a.created_at⟩

instance : IsTrans Todo createdDesc :=
  ⟨fun _ _ _ hab hbc => le_trans hbc hab⟩

/-- Delivery of a queryset under the model's default ordering. -/
def orderTodos (l : List Todo) : List Todo :=
  List.insertionSort createdDesc l

/-- `todo_list` (src/todo/views.py lines 9-31): the requesting user's rows,
narrowed by the `status` GET parameter when that is truthy and then by the
`priority` GET parameter when that is truthy, delivered in the model's
default order. -/
def todo_list (store : List Todo) (u : Nat)
    (status_filter priority_filter : Option String) : List Todo :=
  let todos := store.filter (fun t => t.owner == u)
  let todos :=
    if truthyOpt status_filter then
      todos.filter (fun t => t.status == status_filter.getD "")
    else todos
  let todos :=
    if truthyOpt priority_filter then
      todos.filter (fun t => t.priority == priority_filter.getD "")
    else todos
  orderTodos todos

/-- The claim's characterization of a row passing the listing's filters:
the row is the user's, its status matches the status filter when one is
present (an absent — in HTTP terms, missing or empty — parameter means no
constraint), and likewise its priority. -/
def matchesFilters (u : Nat) (status_filter priority_filter : Option String)
    (t : Todo) : Bool :=
  t.owner == u &&
    (!truthyOpt status_filter || t.status == status_filter.getD "") &&
    (!truthyOpt priority_filter || t.priority == priority_filter.getD "")

/-- C8: the listing returns exactly the owner's rows passing both filters
(so in particular the empty list, not an error, when nothing matches),
ordered by creation time descending. -/
theorem todo_list_filters_and_orders (store : List Todo) (u : Nat)
    (sf pf : Option String) :
    List.Perm (todo_list store u sf pf) (store.filter (matchesFilters u sf pf)) ∧
    List.Sorted createdDesc (todo_list store u sf pf) := by
  constructor
  · simp only [todo_list, orderTodos]
    refine (List.perm_insertionSort createdDesc _).trans ?_
    have heq : (if truthyOpt pf then
        (if truthyOpt sf then
          (store.filter (fun t => t.owner == u)).filter
            (fun t => t.status == sf.getD "")
         else store.filter (fun t => t.owner == u)).filter
          (fun t => t.priority == pf.getD "")
        else
        (if truthyOpt sf then
          (store.filter (fun t => t.owner == u)).filter
            (fun t => t.status == sf.getD "")
         else store.filter (fun t => t.owner == u))) =
        store.filter (matchesFilters u sf pf) := by
      cases hs : truthyOpt sf <;> cases hp2 : truthyOpt pf <;>
        simp only [if_true, if_false, Bool.false_eq_true, List.filter_filter,
          ite_true, ite_false] <;>
        refine List.filter_congr ?_ <;>
        intro a ha <;>
        cases h1 : (a.owner == u) <;>
        cases h2 : (a.status == sf.getD "") <;>
        cases h3 : (a.priority == pf.getD "") <;>
        simp [matchesFilters, hs, hp2, h1, h2, h3]
    rw [heq]
  · simp only [todo_list, orderTodos]
    exact List.sorted_insertionSort createdDesc _
